import Mathlib

/-!
Verification of the TradeX V2 signal-aggregation, risk-sizing and
backtest-simulation core.  Python source files (`config.py`,
`risk_module.py`, `risk_manager.py`, `logic_engine.py`,
`backtest_engine.py`) are shallowly embedded as executable Lean
definitions over `ℚ`; machine floats are modelled as exact rationals.
-/

namespace TradeX

/-! ## Configuration constants (`config.py`) -/

namespace Config

def STOP_LOSS_PERCENTAGE : ℚ := 2
def TAKE_PROFIT_PERCENTAGE : ℚ := 4
def MAX_DAILY_TRADES : ℕ := 15
def MAX_DAILY_LOSS : ℚ := 3
def MAX_POSITION_SIZE : ℚ := 1/10
def BASE_POSITION_SIZE : ℚ := 1/50
def QUANTITY : ℚ := 1/1000
def MAX_QUANTITY : ℚ := 1/100
def TECHNICAL_INDICATORS_WEIGHT : ℚ := 3/10
def ML_PREDICTION_WEIGHT : ℚ := 7/20
def TREND_CONFIRMATION_WEIGHT : ℚ := 1/5
def LIQUIDITY_VOLATILITY_WEIGHT : ℚ := 3/20
def REGIME_ADAPTATION : Bool := true
def KELLY_CRITERION : Bool := true
def VOLATILITY_ADJUSTMENT : Bool := true

end Config

/-! ## Risk module (`risk_module.py`) -/

/-- Embedding of `RiskModule._calculate_kelly_criterion`.  The `avg_loss == 0` guard is
line 285; when `avg_win == 0` the Python expression `(b*p - q)/b` raises
`ZeroDivisionError`, the surrounding `except` catches it and returns `0.5`
(line 303), embedded here as the second guard. -/
def kellyCriterion (win_rate avg_win avg_loss : ℚ) : ℚ :=
  if avg_loss = 0 then 1/2
  else if avg_win = 0 then 1/2
  else
    let b := avg_win / |avg_loss|
    let p := win_rate / 100
    let q := 1 - p
    max 0 (min ((b * p - q) / b) (1/4))

/-- Python truthiness of an optional float argument: `None`, `0` and `0.0`
are falsy (used by `if ... and win_rate and avg_win and avg_loss`). -/
def truthy (x : Option ℚ) : Bool :=
  match x with
  | none => false
  | some v => v ≠ 0

/-- Lines 254-258 of `risk_module.py`: the Kelly-scaled base size, or the
base size unscaled when `KELLY_CRITERION` is off or any stat is falsy. -/
def kellySizeUsed (win_rate avg_win avg_loss : Option ℚ) : ℚ :=
  if Config.KELLY_CRITERION ∧ truthy win_rate ∧ truthy avg_win ∧ truthy avg_loss then
    Config.BASE_POSITION_SIZE *
      kellyCriterion (win_rate.getD 0) (avg_win.getD 0) (avg_loss.getD 0)
  else
    Config.BASE_POSITION_SIZE

/-- Embedding of `RiskModule._get_recent_volatility`: it returns the fixed value `0.02`. -/
def recentVolatility : ℚ := 1/50

/-- Embedding of `RiskModule._calculate_volatility_factor`: `1/(1+vol)` clamped to
`[0.5, 1.5]`. -/
def volatilityFactor : ℚ :=
  max (1/2) (min (1 / (1 + recentVolatility)) (3/2))

/-- Embedding of `RiskModule.calculate_position_size` (the Kelly-based overload at
lines 247-276): Kelly scaling, volatility adjustment, confidence
multiplier, then clamping to `[QUANTITY, MAX_POSITION_SIZE]`. -/
def calculatePositionSize (confidence : ℚ) (win_rate avg_win avg_loss : Option ℚ) : ℚ :=
  let kelly_size := kellySizeUsed win_rate avg_win avg_loss
  let volatility_size :=
    if Config.VOLATILITY_ADJUSTMENT then kelly_size * volatilityFactor else kelly_size
  let adjusted_size := volatility_size * min confidence 1
  max (min adjusted_size Config.MAX_POSITION_SIZE) Config.QUANTITY

/-- Embedding of `RiskModule.can_trade` (lines 98-122): the daily-limit / daily-loss /
signal-strength gate, returning the allow flag and the reason string. -/
def canTrade (daily_trades : ℕ) (daily_pnl signal_strength : ℚ) : Bool × String :=
  if daily_trades ≥ Config.MAX_DAILY_TRADES then
    (false, "Daily trade limit reached")
  else if daily_pnl ≤ -Config.MAX_DAILY_LOSS then
    (false, "Daily loss limit reached")
  else if signal_strength < 3/5 then
    (false, "Signal strength too low")
  else
    (true, "Trading allowed")

/-! ### Stop-loss / take-profit prices and exit triggers -/

inductive PSide where
  | BUY
  | SELL
deriving DecidableEq, Repr

/-- Embedding of `RiskModule.calculate_stop_loss`. -/
def calculateStopLoss (entry_price : ℚ) (side : PSide) : ℚ :=
  match side with
  | .BUY => entry_price * (1 - Config.STOP_LOSS_PERCENTAGE / 100)
  | .SELL => entry_price * (1 + Config.STOP_LOSS_PERCENTAGE / 100)

/-- Embedding of `RiskModule.calculate_take_profit`. -/
def calculateTakeProfit (entry_price : ℚ) (side : PSide) : ℚ :=
  match side with
  | .BUY => entry_price * (1 + Config.TAKE_PROFIT_PERCENTAGE / 100)
  | .SELL => entry_price * (1 - Config.TAKE_PROFIT_PERCENTAGE / 100)

/-- One entry of `RiskModule.active_positions` (see `open_position`). -/
structure RPosition where
  side : PSide
  entry_price : ℚ
  stop_loss : ℚ
  take_profit : ℚ
  isOpen : Bool
deriving DecidableEq, Repr

/-- Embedding of `RiskModule.open_position` (lines 124-150), restricted to the fields
the exit check reads. -/
def openPosition (side : PSide) (entry_price : ℚ) : RPosition :=
  { side := side
    entry_price := entry_price
    stop_loss := calculateStopLoss entry_price side
    take_profit := calculateTakeProfit entry_price side
    isOpen := true }

inductive ExitReason where
  | STOP_LOSS
  | TAKE_PROFIT
deriving DecidableEq, Repr

/-- Embedding of `RiskModule.check_stop_loss_take_profit` (lines 178-224) for a single
position: the `if/elif` chain checking stop-loss before take-profit. -/
def checkExitTriggers (p : RPosition) (current_price : ℚ) : Option ExitReason :=
  if p.isOpen = false then none
  else
    match p.side with
    | .BUY =>
        if current_price ≤ p.stop_loss then some .STOP_LOSS
        else if current_price ≥ p.take_profit then some .TAKE_PROFIT
        else none
    | .SELL =>
        if current_price ≥ p.stop_loss then some .STOP_LOSS
        else if current_price ≤ p.take_profit then some .TAKE_PROFIT
        else none

/-! ## Risk manager (`risk_manager.py`) -/

/-- Last element of a list with a default (Python `values[-1]`). -/
def lastD (d : ℚ) : List ℚ → ℚ
  | [] => d
  | [x] => x
  | _ :: x :: xs => lastD d (x :: xs)

/-- Maximum of a list seeded with a first value (Python `max(values)`). -/
def listMax (x : ℚ) (xs : List ℚ) : ℚ := xs.foldl max x

/-- Embedding of `RiskManager.calculate_drawdown` (lines 48-57): `0` for fewer than two
values, else `(max - last)/max`. -/
def calculateDrawdown (vals : List ℚ) : ℚ :=
  match vals with
  | [] => 0
  | [_] => 0
  | a :: b :: rest =>
      let peak := listMax a (b :: rest)
      let current := lastD a (a :: b :: rest)
      (peak - current) / peak

/-- Embedding of `RiskManager.should_pause_trading` (lines 245-266): pause flag and
the accumulated reasons. -/
def shouldPauseTrading (max_drawdown current_drawdown risk_score : ℚ)
    (recent_positions : ℕ) : Bool × List String :=
  let reasons : List String :=
    (if current_drawdown > max_drawdown * (8/10) then ["Approaching drawdown limit"] else []) ++
    (if risk_score > 80 then ["High risk score"] else []) ++
    (if recent_positions > 15 then ["High trading frequency"] else [])
  (!reasons.isEmpty, reasons)

/-! ## Logic engine (`logic_engine.py`) -/

inductive Signal where
  | BUY
  | SELL
  | HOLD
deriving DecidableEq, Repr

/-- One analyzer result as consumed by `make_decision`: a signal plus a
confidence. -/
structure Analysis where
  signal : Signal
  confidence : ℚ
deriving DecidableEq, Repr

/-- The market-regime strings produced by `_detect_market_regime`. -/
inductive Regime where
  | BULLISH_LOW
  | BULLISH_MEDIUM
  | BULLISH_HIGH
  | BEARISH_LOW
  | BEARISH_MEDIUM
  | BEARISH_HIGH
  | SIDEWAYS_LOW
  | SIDEWAYS_MEDIUM
  | SIDEWAYS_HIGH
  | UNKNOWN
deriving DecidableEq, Repr

/-- Python substring test for BULLISH inside the regime string. -/
def regimeHasBullish : Regime → Bool
  | .BULLISH_LOW | .BULLISH_MEDIUM | .BULLISH_HIGH => true
  | _ => false

/-- Python substring test for BEARISH inside the regime string. -/
def regimeHasBearish : Regime → Bool
  | .BEARISH_LOW | .BEARISH_MEDIUM | .BEARISH_HIGH => true
  | _ => false

/-- Python substring test for SIDEWAYS inside the regime string. -/
def regimeHasSideways : Regime → Bool
  | .SIDEWAYS_LOW | .SIDEWAYS_MEDIUM | .SIDEWAYS_HIGH => true
  | _ => false

/-- Python substring test for HIGH inside the regime string. -/
def regimeHasHigh : Regime → Bool
  | .BULLISH_HIGH | .BEARISH_HIGH | .SIDEWAYS_HIGH => true
  | _ => false

/-- Python substring test for LOW inside the regime string. -/
def regimeHasLow : Regime → Bool
  | .BULLISH_LOW | .BEARISH_LOW | .SIDEWAYS_LOW => true
  | _ => false

/-- The four category weights of the logic engine. -/
structure Weights where
  technical : ℚ
  ml : ℚ
  trend : ℚ
  liquidity : ℚ
deriving DecidableEq, Repr

def weightTotal (w : Weights) : ℚ :=
  w.technical + w.ml + w.trend + w.liquidity

/-- The base weight profile loaded from `config.py` in
`LogicEngine.__init__`. -/
def configWeights : Weights :=
  { technical := Config.TECHNICAL_INDICATORS_WEIGHT
    ml := Config.ML_PREDICTION_WEIGHT
    trend := Config.TREND_CONFIRMATION_WEIGHT
    liquidity := Config.LIQUIDITY_VOLATILITY_WEIGHT }

/-- The regime-specific multiplicative adjustment of
`_adjust_weights_for_regime` (lines 367-382), before normalization. -/
def regimeMultiplied (w : Weights) (r : Regime) : Weights :=
  if regimeHasBullish r then
    { technical := w.technical * (9/10), ml := w.ml * (11/10)
      trend := w.trend * (12/10), liquidity := w.liquidity }
  else if regimeHasBearish r then
    { technical := w.technical * (12/10), ml := w.ml * (9/10)
      trend := w.trend, liquidity := w.liquidity * (11/10) }
  else if regimeHasSideways r then
    { technical := w.technical * (13/10), ml := w.ml
      trend := w.trend * (8/10), liquidity := w.liquidity }
  else w

/-- Embedding of `LogicEngine._adjust_weights_for_regime` (lines 354-396): multiply by
the regime profile, then divide each weight by the total. -/
def adjustWeightsForRegime (w : Weights) (r : Regime) : Weights :=
  if Config.REGIME_ADAPTATION = false then w
  else
    let b := regimeMultiplied w r
    let total := weightTotal b
    { technical := b.technical / total, ml := b.ml / total
      trend := b.trend / total, liquidity := b.liquidity / total }

/-- Embedding of `LogicEngine._adjust_confidence_for_regime` (lines 398-416). -/
def adjustConfidenceForRegime (confidence : ℚ) (r : Regime) : ℚ :=
  if Config.REGIME_ADAPTATION = false then confidence
  else
    let c :=
      if regimeHasHigh r then confidence * (8/10)
      else if regimeHasLow r then confidence * (11/10)
      else confidence
    min c 1

/-- Lines 222-253 of `make_decision`: the participating
`(signal, confidence, weight)` triples, in source order technical, ml,
trend, liquidity; an absent analysis contributes nothing. -/
def voteList (ta ml tr lq : Option Analysis) (aw : Weights) :
    List (Signal × ℚ × ℚ) :=
  (match ta with | some a => [(a.signal, a.confidence, aw.technical)] | none => []) ++
  (match ml with | some a => [(a.signal, a.confidence, aw.ml)] | none => []) ++
  (match tr with | some a => [(a.signal, a.confidence, aw.trend)] | none => []) ++
  (match lq with | some a => [(a.signal, a.confidence, aw.liquidity)] | none => [])

/-- The sum of the participating weights (line 266). -/
def totalWeight (votes : List (Signal × ℚ × ℚ)) : ℚ :=
  (votes.map (fun v => v.2.2)).sum

/-- The accumulated `confidence * (weight / total_weight)` score of one
direction (lines 265-270). -/
def signalScore (votes : List (Signal × ℚ × ℚ)) (s : Signal) : ℚ :=
  let tw := totalWeight votes
  (votes.filterMap
    (fun v => if v.1 = s then some (v.2.1 * (v.2.2 / tw)) else none)).sum

structure Decision where
  direction : Signal
  confidence : ℚ
  regime : Regime
deriving DecidableEq, Repr

/-- Embedding of `LogicEngine.make_decision` (lines 212-297).  The Python
`max(signal_scores, key=signal_scores.get)` scans the dict in insertion
order BUY, SELL, HOLD and keeps the first maximum, embedded here by the
two strict comparisons. -/
def makeDecision (ta ml tr lq : Option Analysis) (r : Regime) : Decision :=
  let aw := adjustWeightsForRegime configWeights r
  let votes := voteList ta ml tr lq aw
  if votes.isEmpty then
    { direction := .HOLD, confidence := 1/2, regime := r }
  else
    let buyScore := signalScore votes .BUY
    let sellScore := signalScore votes .SELL
    let holdScore := signalScore votes .HOLD
    let lead := if sellScore > buyScore then Signal.SELL else Signal.BUY
    let leadScore := if sellScore > buyScore then sellScore else buyScore
    let final := if holdScore > leadScore then Signal.HOLD else lead
    { direction := final
      confidence := adjustConfidenceForRegime (signalScore votes final) r
      regime := r }

/-! ## Backtest engine (`backtest_engine.py`) -/

inductive TSide where
  | buy
  | sell
deriving DecidableEq, Repr

/-- One entry of `BacktestEngine.positions`. -/
structure BPosition where
  amount : ℚ
  entry_price : ℚ
  total_invested : ℚ
deriving DecidableEq, Repr

/-- One entry of `BacktestEngine.trades`; the pnl fields are only present
when `execute_trade` attaches them (lines 347-351). -/
structure TradeRec where
  side : TSide
  price : ℚ
  amount_usd : ℚ
  balance_after : ℚ
  pnl_pct : Option ℚ
  pnl_usd : Option ℚ
deriving DecidableEq, Repr

/-- The backtest state for a single symbol: cash balance, the open
position if any, and the appended trade records. -/
structure BState where
  current_balance : ℚ
  position : Option BPosition
  trades : List TradeRec
deriving DecidableEq, Repr

/-- Embedding of `BacktestEngine.execute_trade` (lines 269-359).  `none` models the
Python `return False` paths (insufficient balance, no position to sell,
and the `ZeroDivisionError` at `price = 0` caught by the handler), all of
which leave the engine state unchanged. -/
def executeTrade (st : BState) (side : TSide) (price amount_usd : ℚ) :
    Option BState :=
  let trade_amount := min amount_usd (st.current_balance * Config.MAX_POSITION_SIZE)
  match side with
  | .buy =>
      if trade_amount > st.current_balance then none
      else if price = 0 then none
      else
        let crypto_amount := trade_amount / price
        let new_balance := st.current_balance - trade_amount
        let pos : BPosition :=
          match st.position with
          | none =>
              { amount := crypto_amount, entry_price := price
                total_invested := trade_amount }
          | some p =>
              let total_amount := p.amount + crypto_amount
              let total_invested := p.total_invested + trade_amount
              { amount := total_amount, entry_price := total_invested / total_amount
                total_invested := total_invested }
        some { current_balance := new_balance
               position := some pos
               trades := st.trades ++
                 [{ side := .buy, price := price, amount_usd := trade_amount
                    balance_after := new_balance, pnl_pct := none, pnl_usd := none }] }
  | .sell =>
      match st.position with
      | none => none
      | some p =>
          if p.amount ≤ 0 then none
          else if price = 0 then none
          else
            let sell_amount := min p.amount (trade_amount / price)
            let proceeds := sell_amount * price
            let new_balance := st.current_balance + proceeds
            let remaining := p.amount - sell_amount
            let posAfter : Option BPosition :=
              if remaining ≤ 0 then none
              else some { p with amount := remaining }
            let baseRec : TradeRec :=
              { side := .sell, price := price, amount_usd := trade_amount
                balance_after := new_balance, pnl_pct := none, pnl_usd := none }
            let finalRec : TradeRec :=
              match posAfter with
              | some q =>
                  { baseRec with
                      pnl_pct := some ((price - q.entry_price) / q.entry_price)
                      pnl_usd := some (sell_amount * (price - q.entry_price)) }
              | none => baseRec
            some { current_balance := new_balance
                   position := posAfter
                   trades := st.trades ++ [finalRec] }

/-- Embedding of `BacktestEngine.check_stop_loss_take_profit` (lines 361-378): the
fractional pnl is compared directly against the raw percentage constants;
a failed `execute_trade` leaves the state unchanged. -/
def checkStopLossTakeProfitB (st : BState) (current_price : ℚ) : BState :=
  match st.position with
  | none => st
  | some p =>
      let pnl_pct := (current_price - p.entry_price) / p.entry_price
      if pnl_pct ≤ -Config.STOP_LOSS_PERCENTAGE then
        (executeTrade st .sell current_price p.total_invested).getD st
      else if pnl_pct ≥ Config.TAKE_PROFIT_PERCENTAGE then
        (executeTrade st .sell current_price p.total_invested).getD st
      else st

/-- The pnl value of a trade record with default 0, as the dict lookup in
`calculate_performance_metrics` reads it. -/
def pnlUsdD (t : TradeRec) : ℚ := t.pnl_usd.getD 0

/-- Line 509: the number of trades counted as winning. -/
def winningTradeCount (ts : List TradeRec) : ℕ :=
  (ts.filter (fun t => pnlUsdD t > 0)).length

/-- Line 510: the number of trades counted as losing. -/
def losingTradeCount (ts : List TradeRec) : ℕ :=
  (ts.filter (fun t => pnlUsdD t < 0)).length

/-- One iteration of the peak/drawdown loop of
`calculate_performance_metrics` (lines 530-540): the updated peak and the
drawdown computed at this balance. -/
def ddStep (peak balance : ℚ) : ℚ × ℚ :=
  let pk := if balance > peak then balance else peak
  (pk, (pk - balance) / pk)

/-- The whole peak/drawdown loop: the sequence of (peak, drawdown) pairs
produced over the daily balances, starting from the initial balance. -/
def ddScan : ℚ → List ℚ → List (ℚ × ℚ)
  | _, [] => []
  | peak, b :: rest =>
      let s := ddStep peak b
      s :: ddScan s.1 rest

end TradeX

/-! ## Theorems -/

namespace TradeX

/-- C2.  The claim asserts that every Kelly input yields a fraction in
`[0, 0.25]`; at `win_rate = 50`, `avg_win = 0`, `avg_loss = 1` the Python
code divides by `b = 0`, the exception handler returns `0.5`, and
`0.5 > 0.25`. -/
theorem kelly_clamp_counterexample :
    kellyCriterion 50 0 1 = 1/2 ∧ ¬ (kellyCriterion 50 0 1 ≤ 1/4) := by
  constructor
  · rfl
  · rw [kellyCriterion]
    norm_num

/-- C2 (amended).  When both `avg_loss` and `avg_win` are nonzero the
Kelly fraction is clamped to `[0, 0.25]`; when `avg_loss = 0`, or when
`avg_win = 0` with `avg_loss ≠ 0` (the zero-division fallback), the
returned fraction is exactly `0.5`. -/
theorem kelly_clamped (win_rate avg_win avg_loss : ℚ)
    (hl : avg_loss ≠ 0) (hw : avg_win ≠ 0) :
    (0 ≤ kellyCriterion win_rate avg_win avg_loss ∧
      kellyCriterion win_rate avg_win avg_loss ≤ 1/4) ∧
    kellyCriterion win_rate 0 avg_loss = 1/2 ∧
    kellyCriterion win_rate avg_win 0 = 1/2 := by
  refine ⟨⟨?_, ?_⟩, ?_, ?_⟩
  · rw [kellyCriterion, if_neg hl, if_neg hw]
    exact le_max_left 0 _
  · rw [kellyCriterion, if_neg hl, if_neg hw]
    exact max_le (by norm_num) (min_le_right _ _)
  · rw [kellyCriterion, if_neg hl, if_pos rfl]
  · rw [kellyCriterion, if_pos rfl]

/-- C2 witness at `win_rate = 60`, `avg_win = 2`, `avg_loss = -1`. -/
theorem kelly_clamped_witness :
    (0 ≤ kellyCriterion 60 2 (-1) ∧ kellyCriterion 60 2 (-1) ≤ 1/4) ∧
    kellyCriterion 60 0 (-1) = 1/2 ∧ kellyCriterion 60 2 0 = 1/2 :=
  kelly_clamped 60 2 (-1) (by norm_num) (by norm_num)

/-- C4.  The gate rejects whenever the daily trade count has reached the
maximum, whenever daily PnL is at or below the negative max daily loss,
and whenever signal strength is below the `0.6` minimum; the drawdown
pause fires whenever drawdown exceeds 80% of the configured max drawdown;
and a rejection carries one of the three recorded reasons (the gate
returns no resized amount at all). -/
theorem trade_gate_rejects (dt : ℕ) (pnl ss mdd dd rs : ℚ) (rp : ℕ) :
    (dt ≥ Config.MAX_DAILY_TRADES → (canTrade dt pnl ss).1 = false) ∧
    (pnl ≤ -Config.MAX_DAILY_LOSS → (canTrade dt pnl ss).1 = false) ∧
    (ss < 3/5 → (canTrade dt pnl ss).1 = false) ∧
    (dd > mdd * (8/10) → (shouldPauseTrading mdd dd rs rp).1 = true) ∧
    ((canTrade dt pnl ss).1 = false →
      (canTrade dt pnl ss).2 = "Daily trade limit reached" ∨
      (canTrade dt pnl ss).2 = "Daily loss limit reached" ∨
      (canTrade dt pnl ss).2 = "Signal strength too low") := by
  refine ⟨?_, ?_, ?_, ?_, ?_⟩
  · intro h
    rw [canTrade]
    split_ifs
    all_goals simp_all
  · intro h
    rw [canTrade]
    split_ifs
    all_goals simp_all
  · intro h
    rw [canTrade]
    split_ifs <;> simp_all
  · intro h
    simp [shouldPauseTrading, h]
  · rw [canTrade]
    split_ifs <;> simp

/-- C4 witness: at the trade-count cap (15), at the loss cap, below the
strength threshold, and past 80% of a max drawdown of 0.25. -/
theorem trade_gate_rejects_witness :
    (canTrade 15 0 1).1 = false ∧
    (canTrade 0 (-3) 1).1 = false ∧
    (canTrade 0 0 (1/2)).1 = false ∧
    (shouldPauseTrading (1/4) (21/100) 0 0).1 = true :=
  ⟨(trade_gate_rejects 15 0 1 0 0 0 0).1 (by norm_num [Config.MAX_DAILY_TRADES]),
   (trade_gate_rejects 0 (-3) 1 0 0 0 0).2.1 (by norm_num [Config.MAX_DAILY_LOSS]),
   (trade_gate_rejects 0 0 (1/2) 0 0 0 0).2.2.1 (by norm_num),
   (trade_gate_rejects 0 0 0 (1/4) (21/100) 0 0).2.2.2.1 (by norm_num)⟩

/-- C8.  For a position opened at a positive entry price, a BUY position
is flagged for stop-loss exactly when the price is at or below its
stop-loss price and for take-profit exactly when the price is at or above
its take-profit price; a SELL position uses the inverted comparisons. -/
theorem exit_triggers_exact (entry price : ℚ) (he : 0 < entry) :
    (checkExitTriggers (openPosition .BUY entry) price = some .STOP_LOSS ↔
        price ≤ calculateStopLoss entry .BUY) ∧
    (checkExitTriggers (openPosition .BUY entry) price = some .TAKE_PROFIT ↔
        price ≥ calculateTakeProfit entry .BUY) ∧
    (checkExitTriggers (openPosition .SELL entry) price = some .STOP_LOSS ↔
        price ≥ calculateStopLoss entry .SELL) ∧
    (checkExitTriggers (openPosition .SELL entry) price = some .TAKE_PROFIT ↔
        price ≤ calculateTakeProfit entry .SELL) := by
  have hsl : calculateStopLoss entry .BUY < calculateTakeProfit entry .BUY := by
    simp only [calculateStopLoss, calculateTakeProfit,
      Config.STOP_LOSS_PERCENTAGE, Config.TAKE_PROFIT_PERCENTAGE]
    nlinarith
  have hss : calculateTakeProfit entry .SELL < calculateStopLoss entry .SELL := by
    simp only [calculateStopLoss, calculateTakeProfit,
      Config.STOP_LOSS_PERCENTAGE, Config.TAKE_PROFIT_PERCENTAGE]
    nlinarith
  refine ⟨?_, ?_, ?_, ?_⟩
  all_goals simp only [checkExitTriggers, openPosition]
  all_goals split_ifs <;> simp_all <;> linarith

/-- C8 witness: entry 100 long, price 98 hits the stop-loss and price 104
hits the take-profit. -/
theorem exit_triggers_exact_witness :
    checkExitTriggers (openPosition .BUY 100) 98 = some .STOP_LOSS ∧
    checkExitTriggers (openPosition .BUY 100) 104 = some .TAKE_PROFIT :=
  ⟨((exit_triggers_exact 100 98 (by norm_num)).1).2
      (by norm_num [calculateStopLoss, Config.STOP_LOSS_PERCENTAGE]),
   ((exit_triggers_exact 100 104 (by norm_num)).2.1).2
      (by norm_num [calculateTakeProfit, Config.TAKE_PROFIT_PERCENTAGE])⟩

/-- C10.  When any of the three Kelly statistics is `None` or zero, the
Kelly computation is skipped and the base size is used unscaled (the full
sizing result equals the call with no statistics at all); moreover
whenever the Kelly branch is entered both statistics are nonzero, so
`_calculate_kelly_criterion` takes its clamped-formula branch, never the
`avg_loss == 0` default of `0.5`. -/
theorem kelly_sizing_skip (conf : ℚ) (wr aw al : Option ℚ)
    (hskip : ¬ (truthy wr ∧ truthy aw ∧ truthy al)) :
    kellySizeUsed wr aw al = Config.BASE_POSITION_SIZE ∧
    calculatePositionSize conf wr aw al = calculatePositionSize conf none none none ∧
    (∀ w a l : ℚ, a ≠ 0 → l ≠ 0 →
      kellyCriterion w a l =
        max 0 (min ((a / |l| * (w / 100) - (1 - w / 100)) / (a / |l|)) (1/4))) := by
  have hsz : kellySizeUsed wr aw al = Config.BASE_POSITION_SIZE := by
    rw [kellySizeUsed, if_neg]
    intro hc
    exact hskip hc.2
  have hsz2 : kellySizeUsed none none none = Config.BASE_POSITION_SIZE := by
    simp [kellySizeUsed, truthy]
  refine ⟨hsz, ?_, ?_⟩
  · rw [calculatePositionSize, calculatePositionSize, hsz, hsz2]
  · intro w a l ha hl
    rw [kellyCriterion, if_neg hl, if_neg ha]

/-- Regime adjustment is the identity normalization on the UNKNOWN
regime, because the config weights already sum to 1. -/
lemma adjustWeights_UNKNOWN_eval :
    adjustWeightsForRegime configWeights .UNKNOWN =
      { technical := 3/10, ml := 7/20, trend := 1/5, liquidity := 3/20 } := by
  norm_num [adjustWeightsForRegime, regimeMultiplied, regimeHasBullish,
    regimeHasBearish, regimeHasSideways, weightTotal, configWeights,
    Config.REGIME_ADAPTATION, Config.TECHNICAL_INDICATORS_WEIGHT,
    Config.ML_PREDICTION_WEIGHT, Config.TREND_CONFIRMATION_WEIGHT,
    Config.LIQUIDITY_VOLATILITY_WEIGHT, Weights.mk.injEq]

/-- The two-vote tie input evaluated to its concrete vote list. -/
lemma tieVotes_eval :
    voteList (some ⟨.BUY, 7/10⟩) (some ⟨.SELL, 3/5⟩) none none
        (adjustWeightsForRegime configWeights .UNKNOWN) =
      [(Signal.BUY, 7/10, 3/10), (Signal.SELL, 3/5, 7/20)] := by
  rw [adjustWeights_UNKNOWN_eval]
  rfl

lemma tieScore_BUY :
    signalScore [(Signal.BUY, 7/10, 3/10), (Signal.SELL, 3/5, 7/20)] .BUY = 21/65 := by
  simp [signalScore, totalWeight, List.filterMap_cons]
  norm_num

lemma tieScore_SELL :
    signalScore [(Signal.BUY, 7/10, 3/10), (Signal.SELL, 3/5, 7/20)] .SELL = 21/65 := by
  simp [signalScore, totalWeight, List.filterMap_cons]
  norm_num

lemma tieScore_HOLD :
    signalScore [(Signal.BUY, 7/10, 3/10), (Signal.SELL, 3/5, 7/20)] .HOLD = 0 := by
  simp [signalScore, totalWeight, List.filterMap_cons]

/-- C3.  The claim asserts ties yield HOLD with confidence 0.5; with a
technical BUY vote of confidence 0.7 and an ML SELL vote of confidence
0.6 under the UNKNOWN regime, the accumulated BUY and SELL scores tie at
21/65, yet `make_decision` returns BUY with confidence 21/65 (the Python
`max` keeps the first key of the score dict). -/
theorem decision_tie_counterexample :
    signalScore
        (voteList (some ⟨.BUY, 7/10⟩) (some ⟨.SELL, 3/5⟩) none none
          (adjustWeightsForRegime configWeights .UNKNOWN)) .BUY =
      signalScore
        (voteList (some ⟨.BUY, 7/10⟩) (some ⟨.SELL, 3/5⟩) none none
          (adjustWeightsForRegime configWeights .UNKNOWN)) .SELL ∧
    makeDecision (some ⟨.BUY, 7/10⟩) (some ⟨.SELL, 3/5⟩) none none .UNKNOWN =
      { direction := .BUY, confidence := 21/65, regime := .UNKNOWN } ∧
    (makeDecision (some ⟨.BUY, 7/10⟩) (some ⟨.SELL, 3/5⟩) none none
        .UNKNOWN).direction ≠ Signal.HOLD ∧
    (makeDecision (some ⟨.BUY, 7/10⟩) (some ⟨.SELL, 3/5⟩) none none
        .UNKNOWN).confidence ≠ 1/2 := by
  have hdec : makeDecision (some ⟨.BUY, 7/10⟩) (some ⟨.SELL, 3/5⟩) none none .UNKNOWN =
      { direction := .BUY, confidence := 21/65, regime := .UNKNOWN } := by
    simp only [makeDecision, tieVotes_eval, tieScore_BUY, tieScore_SELL, tieScore_HOLD]
    norm_num [adjustConfidenceForRegime, regimeHasHigh, regimeHasLow,
      Config.REGIME_ADAPTATION, tieScore_BUY]
  refine ⟨by rw [tieVotes_eval, tieScore_BUY, tieScore_SELL], hdec, ?_, ?_⟩
  · rw [hdec]
    simp
  · rw [hdec]
    norm_num

/-- C3 (amended).  An empty vote set yields HOLD with confidence 0.5;
when the accumulated BUY and SELL scores tie and HOLD does not strictly
exceed them, the decision is BUY — the first direction in the fixed dict
order BUY, SELL, HOLD — not HOLD. -/
theorem decision_empty_and_tie (ta ml tr lq : Option Analysis) (r : Regime)
    (hbs : signalScore (voteList ta ml tr lq (adjustWeightsForRegime configWeights r)) .BUY =
        signalScore (voteList ta ml tr lq (adjustWeightsForRegime configWeights r)) .SELL)
    (hh : signalScore (voteList ta ml tr lq (adjustWeightsForRegime configWeights r)) .HOLD ≤
        signalScore (voteList ta ml tr lq (adjustWeightsForRegime configWeights r)) .BUY) :
    makeDecision none none none none r =
      { direction := .HOLD, confidence := 1/2, regime := r } ∧
    ((voteList ta ml tr lq (adjustWeightsForRegime configWeights r)).isEmpty = false →
      (makeDecision ta ml tr lq r).direction = .BUY) := by
  constructor
  · rfl
  · intro hne
    have h1 : ¬ (signalScore (voteList ta ml tr lq (adjustWeightsForRegime configWeights r)) .SELL >
        signalScore (voteList ta ml tr lq (adjustWeightsForRegime configWeights r)) .BUY) := by
      rw [hbs]
      exact lt_irrefl _
    have h2 : ¬ (signalScore (voteList ta ml tr lq (adjustWeightsForRegime configWeights r)) .HOLD >
        signalScore (voteList ta ml tr lq (adjustWeightsForRegime configWeights r)) .BUY) :=
      not_lt.mpr hh
    simp only [makeDecision, hne, Bool.false_eq_true, if_false, if_neg h1, if_neg h2]

/-- C3 witness: the amended tie behaviour at the concrete tied input and
the empty input. -/
theorem decision_empty_and_tie_witness :
    makeDecision none none none none .UNKNOWN =
      { direction := .HOLD, confidence := 1/2, regime := .UNKNOWN } ∧
    (makeDecision (some ⟨.BUY, 7/10⟩) (some ⟨.SELL, 3/5⟩) none none
        .UNKNOWN).direction = .BUY :=
  have h := decision_empty_and_tie (some ⟨.BUY, 7/10⟩) (some ⟨.SELL, 3/5⟩) none none
    .UNKNOWN (by rw [tieVotes_eval, tieScore_BUY, tieScore_SELL])
    (by rw [tieVotes_eval, tieScore_BUY, tieScore_HOLD]; norm_num)
  ⟨h.1, h.2 (by rw [tieVotes_eval]; rfl)⟩

/-- Sum of a list of rationals each divided by the same denominator. -/
lemma sum_map_div_aux (l : List (Signal × ℚ × ℚ)) (t : ℚ) :
    (l.map (fun v => v.2.2 / t)).sum = (l.map (fun v => v.2.2)).sum / t := by
  induction l with
  | nil => simp
  | cons a l ih => simp [ih, add_div]

/-- C6.  For every weight profile whose regime-multiplied total is
positive, the regime-adjusted weights sum to exactly 1 (hence within
1e-9); and for every participating vote list with nonzero total weight,
the per-vote normalized weights `w / total` used inside `make_decision`
sum to exactly 1. -/
theorem aggregator_weights_sum_one (w : Weights) (r : Regime)
    (h : 0 < weightTotal (regimeMultiplied w r))
    (votes : List (Signal × ℚ × ℚ)) (hv : totalWeight votes ≠ 0) :
    weightTotal (adjustWeightsForRegime w r) = 1 ∧
    (votes.map (fun v => v.2.2 / totalWeight votes)).sum = 1 := by
  constructor
  · have hb : weightTotal (regimeMultiplied w r) ≠ 0 := ne_of_gt h
    rw [adjustWeightsForRegime, if_neg (by simp [Config.REGIME_ADAPTATION])]
    simp only [weightTotal] at hb ⊢
    field_simp
  · rw [sum_map_div_aux]
    exact div_self hv

/-- C6 witness: the configured profile in the BULLISH_HIGH regime and a
two-vote list. -/
theorem aggregator_weights_sum_one_witness :
    weightTotal (adjustWeightsForRegime configWeights .BULLISH_HIGH) = 1 ∧
    ([(Signal.BUY, (1 : ℚ), (3 : ℚ)/10), (Signal.SELL, 1, 7/20)].map
      (fun v => v.2.2 /
        totalWeight [(Signal.BUY, (1 : ℚ), (3 : ℚ)/10), (Signal.SELL, 1, 7/20)])).sum = 1 :=
  aggregator_weights_sum_one configWeights .BULLISH_HIGH
    (by norm_num [weightTotal, regimeMultiplied, regimeHasBullish, configWeights,
      Config.TECHNICAL_INDICATORS_WEIGHT, Config.ML_PREDICTION_WEIGHT,
      Config.TREND_CONFIRMATION_WEIGHT, Config.LIQUIDITY_VOLATILITY_WEIGHT])
    [(Signal.BUY, 1, 3/10), (Signal.SELL, 1, 7/20)] (by norm_num [totalWeight])

/-- Evaluation of `execute_trade` for a buy with no open position. -/
lemma executeTrade_buy_empty (B P A : ℚ) (tr : List TradeRec)
    (hB : ¬ (min A (B * Config.MAX_POSITION_SIZE) > B)) (hP : P ≠ 0) :
    executeTrade ⟨B, none, tr⟩ .buy P A =
      some ⟨B - min A (B * Config.MAX_POSITION_SIZE),
        some ⟨min A (B * Config.MAX_POSITION_SIZE) / P, P,
          min A (B * Config.MAX_POSITION_SIZE)⟩,
        tr ++ [⟨.buy, P, min A (B * Config.MAX_POSITION_SIZE),
          B - min A (B * Config.MAX_POSITION_SIZE), none, none⟩]⟩ := by
  rw [executeTrade]
  simp [hB, hP]

/-- Evaluation of `execute_trade` for a sell whose capped USD amount
covers the whole held quantity: the position is removed and the appended
record carries no pnl fields. -/
lemma executeTrade_sell_full (B P A : ℚ) (p : BPosition) (tr : List TradeRec)
    (hamt : ¬ (p.amount ≤ 0)) (hP : P ≠ 0)
    (hfull : p.amount ≤ min A (B * Config.MAX_POSITION_SIZE) / P) :
    executeTrade ⟨B, some p, tr⟩ .sell P A =
      some ⟨B + p.amount * P, none,
        tr ++ [⟨.sell, P, min A (B * Config.MAX_POSITION_SIZE),
          B + p.amount * P, none, none⟩]⟩ := by
  rw [executeTrade]
  have hsell : min p.amount (min A (B * Config.MAX_POSITION_SIZE) / P) = p.amount :=
    min_eq_left hfull
  simp [hamt, hP, hsell]

/-- C1 (code bug).  `check_stop_loss_take_profit` compares the fractional
pnl against the raw constant `2.0`, so a long opened at 100 is NOT closed
at the claimed trigger price 98 (pnl −2%), nor even at 50 (pnl −50%): the
engine state is unchanged, contradicting the configured 2% stop-loss. -/
theorem backtest_stop_loss_not_triggered :
    checkStopLossTakeProfitB ⟨1000, some ⟨1, 100, 100⟩, []⟩ 98 =
      ⟨1000, some ⟨1, 100, 100⟩, []⟩ ∧
    checkStopLossTakeProfitB ⟨1000, some ⟨1, 100, 100⟩, []⟩ 50 =
      ⟨1000, some ⟨1, 100, 100⟩, []⟩ := by
  constructor
  all_goals
    rw [checkStopLossTakeProfitB]
    norm_num [Config.STOP_LOSS_PERCENTAGE, Config.TAKE_PROFIT_PERCENTAGE]

/-- C5.  The claim asserts every same-price round trip restores the
balance; with initial balance 1000, a buy of 1000 USD at price 100
invests 100 (the 10% cap), but the following sell of the same position at
the same price is capped at `min 1000 (900 × 0.1) = 90` USD, closes only
9/10 of the position, and leaves the balance at 990 ≠ 1000. -/
theorem round_trip_counterexample :
    ((executeTrade ⟨1000, none, []⟩ .buy 100 1000).bind
        (fun s => executeTrade s .sell 100 1000)).map BState.current_balance =
      some 990 ∧ ((990 : ℚ) = 1000 → False) := by
  have h1 : executeTrade ⟨1000, none, []⟩ .buy 100 1000 =
      some ⟨900, some ⟨1, 100, 100⟩, [⟨.buy, 100, 100, 900, none, none⟩]⟩ := by
    rw [executeTrade_buy_empty 1000 100 1000 []
      (by norm_num [Config.MAX_POSITION_SIZE]) (by norm_num)]
    norm_num [Config.MAX_POSITION_SIZE]
  have h2 : executeTrade ⟨900, some ⟨1, 100, 100⟩, [⟨.buy, 100, 100, 900, none, none⟩]⟩
      .sell 100 1000 =
      some ⟨990, some ⟨1/10, 100, 100⟩,
        [⟨.buy, 100, 100, 900, none, none⟩, ⟨.sell, 100, 90, 990, some 0, some 0⟩]⟩ := by
    rw [executeTrade]
    norm_num [Config.MAX_POSITION_SIZE]
  rw [h1]
  simp only [Option.some_bind]
  rw [h2]
  norm_num

/-- C5 (amended).  A buy of A at positive price P followed by a sell at
the same price restores the balance exactly and closes the position
(zero realized P&L), PROVIDED the capped USD amount of the sell,
`min A2 (0.1 × post-buy balance)` is at least the invested amount
`min A (0.1 × B)`; otherwise the cap forces only a partial close. -/
theorem round_trip_restores_balance (B A A2 P : ℚ) (hB : 0 < B) (hA : 0 < A)
    (hP : 0 < P)
    (hcov : min A (B * Config.MAX_POSITION_SIZE) ≤
      min A2 ((B - min A (B * Config.MAX_POSITION_SIZE)) * Config.MAX_POSITION_SIZE)) :
    ∃ st1 st2 : BState,
      executeTrade ⟨B, none, []⟩ .buy P A = some st1 ∧
      executeTrade st1 .sell P A2 = some st2 ∧
      st2.current_balance = B ∧
      st2.current_balance - B = 0 ∧
      st2.position = none := by
  have hmaxpos : (0 : ℚ) < B * Config.MAX_POSITION_SIZE := by
    rw [Config.MAX_POSITION_SIZE]
    positivity
  have htpos : 0 < min A (B * Config.MAX_POSITION_SIZE) := lt_min hA hmaxpos
  have htB : ¬ (min A (B * Config.MAX_POSITION_SIZE) > B) := by
    push_neg
    refine le_trans (min_le_right _ _) ?_
    rw [Config.MAX_POSITION_SIZE]
    nlinarith
  have h1 := executeTrade_buy_empty B P A [] htB hP.ne'
  have hamt : ¬ (min A (B * Config.MAX_POSITION_SIZE) / P ≤ 0) := by
    push_neg
    positivity
  have hfull : min A (B * Config.MAX_POSITION_SIZE) / P ≤
      min A2 ((B - min A (B * Config.MAX_POSITION_SIZE)) * Config.MAX_POSITION_SIZE) / P :=
    (div_le_div_iff_of_pos_right hP).mpr hcov
  have h2 := executeTrade_sell_full (B - min A (B * Config.MAX_POSITION_SIZE)) P A2
    ⟨min A (B * Config.MAX_POSITION_SIZE) / P, P, min A (B * Config.MAX_POSITION_SIZE)⟩
    ([] ++ [⟨.buy, P, min A (B * Config.MAX_POSITION_SIZE),
      B - min A (B * Config.MAX_POSITION_SIZE), none, none⟩]) hamt hP.ne' hfull
  refine ⟨_, _, h1, h2, ?_, ?_, rfl⟩
  · show B - min A (B * Config.MAX_POSITION_SIZE) +
      min A (B * Config.MAX_POSITION_SIZE) / P * P = B
    field_simp
  · show B - min A (B * Config.MAX_POSITION_SIZE) +
      min A (B * Config.MAX_POSITION_SIZE) / P * P - B = 0
    field_simp

/-- C5 witness: B = 1000, A = A2 = 10, P = 100 round-trips back to 1000. -/
theorem round_trip_restores_balance_witness :
    ∃ st1 st2 : BState,
      executeTrade ⟨1000, none, []⟩ .buy 100 10 = some st1 ∧
      executeTrade st1 .sell 100 10 = some st2 ∧
      st2.current_balance = 1000 ∧
      st2.current_balance - 1000 = 0 ∧
      st2.position = none :=
  round_trip_restores_balance 1000 10 10 100 (by norm_num) (by norm_num) (by norm_num)
    (by norm_num [Config.MAX_POSITION_SIZE])

/-- C9.  A sell whose capped amount covers the whole held quantity
removes the position first, so the appended trade record carries no
pnl fields, and the metrics count it as neither a winning nor a losing
trade. -/
theorem full_close_trade_has_no_pnl (B P A : ℚ) (p : BPosition) (tr : List TradeRec)
    (hamt : ¬ (p.amount ≤ 0)) (hP : P ≠ 0)
    (hfull : p.amount ≤ min A (B * Config.MAX_POSITION_SIZE) / P) :
    executeTrade ⟨B, some p, tr⟩ .sell P A =
      some ⟨B + p.amount * P, none,
        tr ++ [⟨.sell, P, min A (B * Config.MAX_POSITION_SIZE),
          B + p.amount * P, none, none⟩]⟩ ∧
    (⟨.sell, P, min A (B * Config.MAX_POSITION_SIZE),
        B + p.amount * P, none, none⟩ : TradeRec).pnl_usd = none ∧
    (⟨.sell, P, min A (B * Config.MAX_POSITION_SIZE),
        B + p.amount * P, none, none⟩ : TradeRec).pnl_pct = none ∧
    winningTradeCount (tr ++ [⟨.sell, P, min A (B * Config.MAX_POSITION_SIZE),
        B + p.amount * P, none, none⟩]) = winningTradeCount tr ∧
    losingTradeCount (tr ++ [⟨.sell, P, min A (B * Config.MAX_POSITION_SIZE),
        B + p.amount * P, none, none⟩]) = losingTradeCount tr := by
  refine ⟨executeTrade_sell_full B P A p tr hamt hP hfull, rfl, rfl, ?_, ?_⟩
  · simp [winningTradeCount, List.filter_append, pnlUsdD]
  · simp [losingTradeCount, List.filter_append, pnlUsdD]

/-- C9 witness: selling a 1-unit position at 100 with ample cap appends a
record without pnl that changes neither the win nor the loss count. -/
theorem full_close_trade_has_no_pnl_witness :
    executeTrade ⟨10000, some ⟨1, 100, 100⟩, []⟩ .sell 100 1000 =
      some ⟨10000 + 1 * 100, none,
        [] ++ [⟨.sell, 100, min 1000 (10000 * Config.MAX_POSITION_SIZE),
          10000 + 1 * 100, none, none⟩]⟩ ∧
    winningTradeCount ([] ++ [⟨.sell, 100, min 1000 (10000 * Config.MAX_POSITION_SIZE),
        10000 + 1 * 100, none, none⟩]) = winningTradeCount [] ∧
    losingTradeCount ([] ++ [⟨.sell, 100, min 1000 (10000 * Config.MAX_POSITION_SIZE),
        10000 + 1 * 100, none, none⟩]) = losingTradeCount [] :=
  have h := full_close_trade_has_no_pnl 10000 100 1000 ⟨1, 100, 100⟩ []
    (by norm_num) (by norm_num) (by norm_num [Config.MAX_POSITION_SIZE])
  ⟨h.1, h.2.2.2.1, h.2.2.2.2⟩

/-- The tracked peak only moves up. -/
lemma le_ddStep_fst (peak b : ℚ) : peak ≤ (ddStep peak b).1 := by
  rw [show (ddStep peak b).1 = if b > peak then b else peak from rfl]
  split_ifs with h
  · linarith
  · exact le_rfl

/-- The updated peak is at least the current balance. -/
lemma balance_le_ddStep_fst (peak b : ℚ) : b ≤ (ddStep peak b).1 := by
  rw [show (ddStep peak b).1 = if b > peak then b else peak from rfl]
  split_ifs with h
  · exact le_rfl
  · exact not_lt.mp h

lemma ddStep_fst_pos (peak b : ℚ) (hp : 0 < peak) : 0 < (ddStep peak b).1 :=
  lt_of_lt_of_le hp (le_ddStep_fst peak b)

/-- One drawdown value is in `[0, 1]` when peak and balance are positive. -/
lemma ddStep_snd_bounds (peak b : ℚ) (hp : 0 < peak) (hb : 0 < b) :
    0 ≤ (ddStep peak b).2 ∧ (ddStep peak b).2 ≤ 1 := by
  have h1 := ddStep_fst_pos peak b hp
  have h2 := balance_le_ddStep_fst peak b
  rw [show (ddStep peak b).2 = ((ddStep peak b).1 - b) / (ddStep peak b).1 from rfl]
  constructor
  · exact div_nonneg (by linarith) h1.le
  · rw [div_le_one h1]
    linarith

/-- Peak monotonicity and drawdown bounds along the whole scan. -/
lemma ddScan_invariant (balances : List ℚ) :
    ∀ initial : ℚ, 0 < initial → (∀ b ∈ balances, 0 < b) →
      List.Chain' (· ≤ ·) (initial :: (ddScan initial balances).map Prod.fst) ∧
      ∀ pr ∈ ddScan initial balances, 0 ≤ pr.2 ∧ pr.2 ≤ 1 := by
  induction balances with
  | nil =>
      intro initial h0 _
      simp [ddScan]
  | cons b rest ih =>
      intro initial h0 hall
      have hb : 0 < b := hall b (List.mem_cons_self _ _)
      have hrest : ∀ x ∈ rest, 0 < x := fun x hx => hall x (List.mem_cons_of_mem _ hx)
      have hpk := ddStep_fst_pos initial b h0
      obtain ⟨ihc, ihd⟩ := ih (ddStep initial b).1 hpk hrest
      constructor
      · rw [ddScan]
        simp only [List.map_cons]
        rw [List.chain'_cons]
        exact ⟨le_ddStep_fst initial b, ihc⟩
      · rw [ddScan]
        intro pr hpr
        rcases List.mem_cons.mp hpr with h | h
        · rw [h]
          exact ddStep_snd_bounds initial b h0 hb
        · exact ihd pr h

lemma le_listMax (x : ℚ) (xs : List ℚ) : x ≤ listMax x xs := by
  induction xs generalizing x with
  | nil => exact le_rfl
  | cons y ys ih => exact le_trans (le_max_left x y) (ih (max x y))

lemma mem_le_listMax (x : ℚ) (xs : List ℚ) (y : ℚ) (hy : y ∈ xs) :
    y ≤ listMax x xs := by
  induction xs generalizing x with
  | nil => cases hy
  | cons z zs ih =>
      rcases List.mem_cons.mp hy with h | h
      · rw [h]
        exact le_trans (le_max_right x z) (le_listMax (max x z) zs)
      · exact ih (max x z) h

lemma lastD_mem (d : ℚ) : ∀ (a : ℚ) (l : List ℚ), lastD d (a :: l) ∈ a :: l := by
  intro a l
  induction l generalizing a with
  | nil => simp [lastD]
  | cons b bs ih => exact List.mem_cons_of_mem a (ih b)

/-- The function `RiskManager.calculate_drawdown` lands in `[0, 1]` on positive
portfolio values. -/
lemma calculateDrawdown_bounds (vals : List ℚ) (hall : ∀ v ∈ vals, 0 < v) :
    0 ≤ calculateDrawdown vals ∧ calculateDrawdown vals ≤ 1 := by
  match vals with
  | [] => simp [calculateDrawdown]
  | [x] => simp [calculateDrawdown]
  | a :: b :: rest =>
      have ha : 0 < a := hall a (List.mem_cons_self _ _)
      have hcurm : lastD a (a :: b :: rest) ∈ a :: b :: rest := lastD_mem a a (b :: rest)
      have hcur : 0 < lastD a (a :: b :: rest) := hall _ hcurm
      have hpeak_cur : lastD a (a :: b :: rest) ≤ listMax a (b :: rest) := by
        rcases List.mem_cons.mp hcurm with h | h
        · rw [h]
          exact le_listMax a (b :: rest)
        · exact mem_le_listMax a (b :: rest) _ h
      have hpk : 0 < listMax a (b :: rest) :=
        lt_of_lt_of_le ha (le_listMax a (b :: rest))
      rw [show calculateDrawdown (a :: b :: rest) =
        (listMax a (b :: rest) - lastD a (a :: b :: rest)) / listMax a (b :: rest) from rfl]
      constructor
      · exact div_nonneg (by linarith) hpk.le
      · rw [div_le_one hpk]
        linarith

/-- C7.  Over every positive simulated balance sequence the tracked peak
is non-decreasing and every drawdown computed by the metrics loop lies in
`[0, 1]`; `RiskManager.calculate_drawdown` also lies in `[0, 1]` over
positive portfolio values. -/
theorem drawdown_invariant :
    (∀ (initial : ℚ) (balances : List ℚ), 0 < initial → (∀ b ∈ balances, 0 < b) →
      List.Chain' (· ≤ ·) (initial :: (ddScan initial balances).map Prod.fst) ∧
      ∀ pr ∈ ddScan initial balances, 0 ≤ pr.2 ∧ pr.2 ≤ 1) ∧
    (∀ vals : List ℚ, (∀ v ∈ vals, 0 < v) →
      0 ≤ calculateDrawdown vals ∧ calculateDrawdown vals ≤ 1) :=
  ⟨fun initial balances h0 hall => ddScan_invariant balances initial h0 hall,
   fun vals hall => calculateDrawdown_bounds vals hall⟩

/-- C7 witness: the balance path 1000, 900, 1100 and the portfolio values
100, 90. -/
theorem drawdown_invariant_witness :
    (List.Chain' (· ≤ ·) ((1000 : ℚ) :: (ddScan 1000 [900, 1100]).map Prod.fst) ∧
      ∀ pr ∈ ddScan (1000 : ℚ) [900, 1100], 0 ≤ pr.2 ∧ pr.2 ≤ 1) ∧
    (0 ≤ calculateDrawdown [100, 90] ∧ calculateDrawdown [100, 90] ≤ 1) :=
  ⟨drawdown_invariant.1 1000 [900, 1100] (by norm_num)
      (by intro b hb; rcases List.mem_cons.mp hb with h | h
          · rw [h]; norm_num
          · simp only [List.mem_singleton] at h; rw [h]; norm_num),
   drawdown_invariant.2 [100, 90]
      (by intro v hv; rcases List.mem_cons.mp hv with h | h
          · rw [h]; norm_num
          · simp only [List.mem_singleton] at h; rw [h]; norm_num)⟩

/-- C10 witness: `avg_win = None` skips Kelly. -/
theorem kelly_sizing_skip_witness :
    kellySizeUsed (some 50) none (some 1) = Config.BASE_POSITION_SIZE ∧
    calculatePositionSize 1 (some 50) none (some 1) =
      calculatePositionSize 1 none none none :=
  ⟨(kelly_sizing_skip 1 (some 50) none (some 1) (by simp [truthy])).1,
   (kelly_sizing_skip 1 (some 50) none (some 1) (by simp [truthy])).2.1⟩

end TradeX
